import Mathlib

/-!
Verification of the route-approximation subsystem of the shipment-tracking
page (`src/components/ShipmentMap.tsx`, `src/lib/geocode.ts`, and the
tracking page component).

Modelling conventions, used uniformly below:
* JavaScript numbers are modelled as exact rationals (`ℚ`); decimal
  literals such as `0.02` and `0.6` denote their exact decimal values.
* `Math.sin (Math.PI * t)` is modelled by an abstract parameter
  `sinpi : ℚ → ℚ`; facts about it (such as `sinpi 0 = 0`) become explicit
  hypotheses where a theorem needs them.
* The source compares square roots of sums of squares
  (`Math.sqrt (dx^2 + dy^2) < best`).  Squaring is strictly monotone on
  nonnegative numbers, so the scan below stores and compares the squared
  quantities instead; the index it selects is the same one the source
  selects.  Accordingly the initial best value `Number.MAX_VALUE` is
  modelled by its square `maxValueSq`.
* `Math.floor (n * 0.6)` for a list length `n : ℕ` is modelled by
  `3 * n / 5` (natural division); for every length representable exactly
  as a double the two agree.
* Asynchronous fetches are modelled by passing the outcome of the network
  interaction as an explicit argument (`FetchResult`, `Except`); a thrown
  JavaScript exception that the function under scrutiny does not catch is
  modelled by an `Except.error` result.
-/

namespace Tracking

/-- A latitude/longitude pair, the `Coords` type of the source.  Route
points (`[lat, lon]` arrays in the source) are modelled by the same
structure. -/
@[ext]
structure Coords where
  lat : ℚ
  lon : ℚ
deriving DecidableEq, Repr

/-- The component state relevant to route resolution: the `routeData` and
`completedRoute` React state cells of `ShipmentMap`. -/
structure MapState where
  routeData : List Coords
  completedRoute : List Coords
deriving DecidableEq, Repr

/-- Both state cells are initialised to `[]` (`useState([])`). -/
def initialState : MapState := ⟨[], []⟩

/-- One point of the synthesized fallback route, for loop index `i`
(source `generateFallbackRoute`, loop body): `t = i / steps` with
`steps = 20`, linear interpolation between `a` (the `from` prop) and `b`
(the `to` prop), plus the sine-shaped lateral offset with amplitude
`0.02` of the coordinate span. -/
def fallbackPoint (sinpi : ℚ → ℚ) (a b : Coords) (i : ℕ) : Coords :=
  let t : ℚ := (i : ℚ) / 20
  let lat := a.lat * (1 - t) + b.lat * t
  let lon := a.lon * (1 - t) + b.lon * t
  let latOffset := (sinpi t * (2/100)) * (b.lon - a.lon)
  let lonOffset := (sinpi t * (2/100)) * (a.lat - b.lat)
  ⟨lat + latOffset, lon + lonOffset⟩

/-- Source `generateFallbackRoute`: the loop `for (i = 0; i <= steps; i++)`
with `steps = 20` pushes the 21 points `fallbackPoint sinpi a b 0 ..
fallbackPoint sinpi a b 20`. -/
def generateFallbackRoute (sinpi : ℚ → ℚ) (a b : Coords) : List Coords :=
  (List.range 21).map (fallbackPoint sinpi a b)

/-- Squared Euclidean distance in degree space between the current
location and a route point, the quantity inside `Math.sqrt` in
`calculateCompletedRoute`. -/
def distSq (c p : Coords) : ℚ :=
  (c.lat - p.lat) ^ 2 + (c.lon - p.lon) ^ 2

/-- The square of `Number.MAX_VALUE` = `(2^53 - 1) * 2^971`, the initial
value of `closestDistance` (squared, to match the squared comparisons). -/
def maxValueSq : ℚ := ((2 ^ 53 - 1) * 2 ^ 971) ^ 2

/-- The `forEach` scan of `calculateCompletedRoute`: mutable state
`(closestPointIndex, closestDistance)` threaded through the list, the
running index `i` alongside; a point replaces the best exactly when its
distance is strictly smaller, so the first index achieving the minimum
survives. -/
def closestScan (c : Coords) : List Coords → ℕ → ℕ → ℚ → ℕ
  | [], _, bestIdx, _ => bestIdx
  | p :: rest, i, bestIdx, bestD =>
    if distSq c p < bestD then closestScan c rest (i + 1) i (distSq c p)
    else closestScan c rest (i + 1) bestIdx bestD

/-- The index of the route point nearest to the current location, as the
source scan computes it (`closestPointIndex` starts at 0,
`closestDistance` at `Number.MAX_VALUE`). -/
def closestPointIndex (c : Coords) (pts : List Coords) : ℕ :=
  closestScan c pts 0 0 maxValueSq

/-- Source `calculateCompletedRoute`, as a function of the current
location `c`, the route scanned, and the previous value of the
`completedRoute` state cell: when `fullRoute.length === 0` the early
`return` leaves the state unchanged; otherwise the state becomes the
route truncated at the nearest index, inclusive. -/
def calculateCompletedRoute (c : Coords) (fullRoute prevCompleted : List Coords) :
    List Coords :=
  if fullRoute.length = 0 then prevCompleted
  else fullRoute.take (closestPointIndex c fullRoute + 1)

/-- The element-wise swap applied to the provider geometry
(`data.routes[0].geometry.coordinates.map(coord => [coord[1], coord[0]])`):
the provider sends `[lon, lat]` pairs, the consumer needs `[lat, lon]`. -/
def convertCoordinates (geometry : List (ℚ × ℚ)) : List Coords :=
  geometry.map (fun coord => ⟨coord.2, coord.1⟩)

/-- The outcome of the routing fetch, as seen by `fetchRoadRoute` after
the two `await`s: either some step before inspecting the payload threw
(network failure, `!response.ok`, body not parseable), or a parsed
payload with its `code` field and its `routes` field (`none` models a
missing/null `routes`, each route is its geometry coordinate list). -/
inductive FetchResult where
  | fetchError : FetchResult
  | payload (code : String) (routes : Option (List (List (ℚ × ℚ)))) : FetchResult
deriving DecidableEq

/-- The `catch` block of `fetchRoadRoute`: set `routeData` to the
synthesized fallback route; then, only when a current coordinate is
supplied, set `completedRoute` to the first `Math.floor(length * 0.6)`
fallback points — when no current coordinate is supplied the `catch`
block leaves `completedRoute` untouched. -/
def applyFallback (sinpi : ℚ → ℚ) (a b : Coords) (current : Option Coords)
    (st : MapState) : MapState :=
  let fallbackRoute := generateFallbackRoute sinpi a b
  let st1 : MapState := { st with routeData := fallbackRoute }
  match current with
  | some _ => { st1 with completedRoute := fallbackRoute.take (3 * fallbackRoute.length / 5) }
  | none => st1

/-- Source `fetchRoadRoute` as a state transformer.  The guard
`data.code !== "Ok" || !data.routes || data.routes.length === 0` throws
into the `catch` block; `routes.getD [] = []` covers both the missing
(`none`) and the empty `routes` list.  On success the converted geometry
of `routes[0]` becomes `routeData`, and `completedRoute` is set by the
nearest-point rule when a current coordinate exists, by the 60% default
otherwise. -/
def fetchRoadRoute (sinpi : ℚ → ℚ) (res : FetchResult) (a b : Coords)
    (current : Option Coords) (st : MapState) : MapState :=
  match res with
  | .fetchError => applyFallback sinpi a b current st
  | .payload code routes =>
    if code ≠ "Ok" ∨ routes.getD [] = [] then applyFallback sinpi a b current st
    else
      let coordinates := convertCoordinates ((routes.getD []).headD [])
      let st1 : MapState := { st with routeData := coordinates }
      match current with
      | some c =>
        { st1 with completedRoute := calculateCompletedRoute c coordinates st.completedRoute }
      | none =>
        { st1 with completedRoute := coordinates.take (3 * coordinates.length / 5) }

/-- The conditions under which `fetchRoadRoute` reaches its `catch`
block: a thrown fetch, a provider code other than `"Ok"`, or a
missing/empty route list. -/
def routeFailure : FetchResult → Bool
  | .fetchError => true
  | .payload code routes => code != "Ok" || (routes.getD []).isEmpty

/-- One geocoding search result, with its latitude/longitude fields
already parsed (`parseFloat(data[0].lat)`, `parseFloat(data[0].lon)` are
modelled by the parsed rational values). -/
structure GeoResult where
  lat : ℚ
  lon : ℚ
deriving DecidableEq, Repr

/-- Source `getCoords` of the tracking page: its own `try` wraps the
fetch and the JSON parse, whose outcome is the argument; any thrown error
is caught and turned into `null` (`none`), an empty result list returns
`null`, and a nonempty one returns the first result's parsed
coordinates.  The function is total: it never propagates an exception. -/
def getCoords : Except Unit (List GeoResult) → Option Coords
  | .error _ => none
  | .ok [] => none
  | .ok (r :: _) => some ⟨r.lat, r.lon⟩

/-- Source `getCoordinatesFromAddress` of `src/lib/geocode.ts`, as a
function of the parsed search results: a nonempty list returns the first
result's parsed coordinates, an empty one throws
`Error("Address not found")`, modelled by `Except.error`. -/
def getCoordinatesFromAddress : List GeoResult → Except String Coords
  | r :: _ => .ok ⟨r.lat, r.lon⟩
  | [] => .error "Address not found"

/-- The tracking-page state touched by `fetchCoordinates`: the three
resolved coordinates inside the shipment record and the page error
message (`none` models the empty error string). -/
structure PageState where
  fromCoords : Option Coords
  toCoords : Option Coords
  currentCoords : Option Coords
  errorMsg : Option String
deriving DecidableEq, Repr

/-- The `try` block of `fetchCoordinates`: the three sequential
`await getCoords(...)` calls, each given the outcome of its own network
interaction.  `getCoords` is total, so the block always reaches its end
and the `do` composition never produces an error. -/
def fetchCoordinatesTryBlock (o d c : Except Unit (List GeoResult)) :
    Except Unit (Option Coords × Option Coords × Option Coords) := do
  let origin := getCoords o
  let destination := getCoords d
  let current := getCoords c
  pure (origin, destination, current)

/-- Source `fetchCoordinates`: on a normal completion of the `try` block
the three coordinates are written into the shipment record; only if the
block threw would the `catch` branch set the
"Could not load map coordinates" error message. -/
def fetchCoordinates (st : PageState) (o d c : Except Unit (List GeoResult)) :
    PageState :=
  match fetchCoordinatesTryBlock o d c with
  | .ok (origin, destination, current) =>
    { st with fromCoords := origin, toCoords := destination, currentCoords := current }
  | .error _ => { st with errorMsg := some "Could not load map coordinates" }

/-- The render guard of the map card
(`shipmentData.fromCoords && shipmentData.toCoords`): the card is
rendered exactly when both the origin and the destination coordinates
are non-null. -/
def showMapCard (st : PageState) : Bool :=
  st.fromCoords.isSome && st.toCoords.isSome

/-- A concrete stand-in for the `sinpi` parameter, used to instantiate
universally quantified statements at closed inputs.  (The theorems about
`generateFallbackRoute` that need properties of the sine take them as
hypotheses, which this function satisfies.) -/
def sinZero : ℚ → ℚ := fun _ => 0

/-! ### Basic facts about the squared-distance scan -/

lemma distSq_nonneg (c p : Coords) : 0 ≤ distSq c p := by
  unfold distSq; positivity

lemma distSq_self (c : Coords) : distSq c c = 0 := by
  unfold distSq; ring

lemma distSq_pos_of_ne (c p : Coords) (h : p ≠ c) : 0 < distSq c p := by
  rcases lt_or_eq_of_le (distSq_nonneg c p) with hlt | heq
  · exact hlt
  · exfalso
    apply h
    unfold distSq at heq
    have h1 : (c.lat - p.lat) ^ 2 = 0 := by
      nlinarith [sq_nonneg (c.lat - p.lat), sq_nonneg (c.lon - p.lon)]
    have h2 : (c.lon - p.lon) ^ 2 = 0 := by
      nlinarith [sq_nonneg (c.lat - p.lat), sq_nonneg (c.lon - p.lon)]
    have e1 : c.lat = p.lat := by
      have := sq_eq_zero_iff.mp h1; linarith
    have e2 : c.lon = p.lon := by
      have := sq_eq_zero_iff.mp h2; linarith
    ext <;> simp [e1, e2]

lemma maxValueSq_pos : 0 < maxValueSq := by
  unfold maxValueSq
  positivity

/-- Once the best distance has reached 0, no later point can strictly
improve it, so the recorded index survives to the end of the scan. -/
lemma closestScan_bestD_zero (c : Coords) :
    ∀ (pts : List Coords) (i k : ℕ), closestScan c pts i k 0 = k := by
  intro pts
  induction pts with
  | nil => intro i k; rfl
  | cons p rest ih =>
    intro i k
    have hnot : ¬ distSq c p < 0 := not_lt.mpr (distSq_nonneg c p)
    simp only [closestScan, if_neg hnot]
    exact ih (i + 1) k

/-- The scan, started at running index `i` with a strictly positive best
distance, stops at the first position whose point equals the current
location: distance 0 strictly beats any positive best, and nothing beats
0 afterwards. -/
lemma closestScan_first_zero (c : Coords) :
    ∀ (pts : List Coords) (k i b : ℕ) (bestD : ℚ), 0 < bestD →
      pts[k]? = some c → (∀ j < k, pts[j]? ≠ some c) →
      closestScan c pts i b bestD = i + k := by
  intro pts
  induction pts with
  | nil => intro k i b bestD _ hk _; simp at hk
  | cons p rest ih =>
    intro k i b bestD hb hk hfirst
    cases k with
    | zero =>
      have hp : p = c := by simpa using hk
      subst hp
      simp only [closestScan, distSq_self, if_pos hb]
      rw [closestScan_bestD_zero]
      omega
    | succ k' =>
      have hk' : rest[k']? = some c := by simpa using hk
      have hfirst' : ∀ j < k', rest[j]? ≠ some c := by
        intro j hj
        have h := hfirst (j + 1) (by omega)
        simpa using h
      have hp : p ≠ c := by
        have h := hfirst 0 (by omega)
        simpa using h
      have hd : 0 < distSq c p := distSq_pos_of_ne c p hp
      simp only [closestScan]
      by_cases hlt : distSq c p < bestD
      · rw [if_pos hlt, ih k' (i + 1) i (distSq c p) hd hk' hfirst']
        omega
      · rw [if_neg hlt, ih k' (i + 1) b bestD hb hk' hfirst']
        omega

/-- When the current location occurs in the route at position `k` and at
no earlier position, the scan selects exactly index `k`. -/
lemma closestPointIndex_first (c : Coords) (pts : List Coords) (k : ℕ)
    (hk : pts[k]? = some c) (hfirst : ∀ j < k, pts[j]? ≠ some c) :
    closestPointIndex c pts = k := by
  unfold closestPointIndex
  have h := closestScan_first_zero c pts k 0 0 maxValueSq maxValueSq_pos hk hfirst
  simpa using h

/-- Core fact behind the nearest-point truncation: a route containing
the current coordinate at position `k` and at no earlier position is
truncated after exactly `k + 1` points. -/
lemma calculateCompletedRoute_first_occurrence (c : Coords)
    (fullRoute prev : List Coords) (k : ℕ) (hk : fullRoute[k]? = some c)
    (hfirst : ∀ j < k, fullRoute[j]? ≠ some c) :
    calculateCompletedRoute c fullRoute prev = fullRoute.take (k + 1) := by
  have hlen : fullRoute.length ≠ 0 := by
    intro h0
    rw [List.length_eq_zero] at h0
    subst h0
    simp at hk
  unfold calculateCompletedRoute
  rw [if_neg hlen, closestPointIndex_first c fullRoute k hk hfirst]

/-- C5: for a route containing the current coordinate at position `k`
(and, per the scan-order tie-break of the source, at no earlier
position — several indices at the minimum distance resolve to the first
one), the completed-prefix computation returns exactly the first `k + 1`
route points. -/
theorem calculateCompletedRoute_at_point (c : Coords) (fullRoute prev : List Coords)
    (k : ℕ) (hk : fullRoute[k]? = some c)
    (hfirst : ∀ j < k, fullRoute[j]? ≠ some c) :
    calculateCompletedRoute c fullRoute prev = fullRoute.take (k + 1) :=
  calculateCompletedRoute_first_occurrence c fullRoute prev k hk hfirst

/-- C5 witness: the route `[(0,0), (3,4)]` with current location `(3,4)`
at position 1 yields the first two points, the whole route. -/
theorem calculateCompletedRoute_at_point_check :
    (([⟨0,0⟩, ⟨3,4⟩] : List Coords)[1]? = some ⟨3,4⟩) ∧
    (∀ j < 1, ([⟨0,0⟩, ⟨3,4⟩] : List Coords)[j]? ≠ some ⟨3,4⟩) ∧
    calculateCompletedRoute ⟨3,4⟩ [⟨0,0⟩, ⟨3,4⟩] [] = [⟨0,0⟩, ⟨3,4⟩] :=
  ⟨by decide, by decide,
    (calculateCompletedRoute_at_point ⟨3,4⟩ [⟨0,0⟩, ⟨3,4⟩] [] 1 (by decide)
      (by decide)).trans rfl⟩

/-! ### The synthesized fallback route -/

lemma generateFallbackRoute_length (sinpi : ℚ → ℚ) (a b : Coords) :
    (generateFallbackRoute sinpi a b).length = 21 := by
  simp [generateFallbackRoute]

lemma generateFallbackRoute_head (sinpi : ℚ → ℚ) (a b : Coords) :
    (generateFallbackRoute sinpi a b).head? = some (fallbackPoint sinpi a b 0) := by
  simp [generateFallbackRoute, List.range_succ_eq_map]

lemma generateFallbackRoute_last (sinpi : ℚ → ℚ) (a b : Coords) :
    (generateFallbackRoute sinpi a b).getLast? = some (fallbackPoint sinpi a b 20) := by
  rw [generateFallbackRoute, show (21:ℕ) = Nat.succ 20 from rfl, List.range_succ,
    List.map_append]
  simp

/-- At loop index 0 the interpolation parameter is 0, so the synthesized
point is exactly the origin whenever the sine vanishes at 0. -/
lemma fallbackPoint_zero (sinpi : ℚ → ℚ) (a b : Coords) (h0 : sinpi 0 = 0) :
    fallbackPoint sinpi a b 0 = a := by
  obtain ⟨alat, alon⟩ := a
  simp only [fallbackPoint, Nat.cast_zero, zero_div, h0, Coords.mk.injEq]
  constructor <;> ring

/-- At loop index 20 the interpolation parameter is 1, so the synthesized
point is exactly the destination whenever the sine vanishes at 1. -/
lemma fallbackPoint_last (sinpi : ℚ → ℚ) (a b : Coords) (h1 : sinpi 1 = 0) :
    fallbackPoint sinpi a b 20 = b := by
  obtain ⟨blat, blon⟩ := b
  have ht : ((20:ℕ) : ℚ) / 20 = 1 := by norm_num
  simp only [fallbackPoint, ht, h1, Coords.mk.injEq]
  constructor <;> ring

/-- C4: for every origin and destination, the fallback generator returns
exactly `steps + 1 = 21` points whose first point is the origin and whose
last point is the destination; the hypotheses record that the lateral
sine offset vanishes at both endpoints (exact for real sine, within
floating-point tolerance in the source). -/
theorem generateFallbackRoute_endpoints (sinpi : ℚ → ℚ) (a b : Coords)
    (h0 : sinpi 0 = 0) (h1 : sinpi 1 = 0) :
    (generateFallbackRoute sinpi a b).length = 21 ∧
    (generateFallbackRoute sinpi a b).head? = some a ∧
    (generateFallbackRoute sinpi a b).getLast? = some b :=
  ⟨generateFallbackRoute_length sinpi a b,
    by rw [generateFallbackRoute_head, fallbackPoint_zero sinpi a b h0],
    by rw [generateFallbackRoute_last, fallbackPoint_last sinpi a b h1]⟩

/-- C4 witness: a concrete instantiation (vanishing sine model, origin
`(0,0)`, destination `(1,2)`). -/
theorem generateFallbackRoute_endpoints_check :
    (generateFallbackRoute sinZero ⟨0,0⟩ ⟨1,2⟩).length = 21 ∧
    (generateFallbackRoute sinZero ⟨0,0⟩ ⟨1,2⟩).head? = some ⟨0,0⟩ ∧
    (generateFallbackRoute sinZero ⟨0,0⟩ ⟨1,2⟩).getLast? = some ⟨1,2⟩ :=
  generateFallbackRoute_endpoints sinZero ⟨0,0⟩ ⟨1,2⟩ rfl rfl

/-- With coincident endpoints both coordinate spans are zero, so the
offsets cancel and every synthesized point equals the endpoint, whatever
the sine values are. -/
lemma fallbackPoint_self (sinpi : ℚ → ℚ) (c : Coords) (i : ℕ) :
    fallbackPoint sinpi c c i = c := by
  obtain ⟨clat, clon⟩ := c
  simp only [fallbackPoint, Coords.mk.injEq]
  constructor <;> ring

lemma generateFallbackRoute_self (sinpi : ℚ → ℚ) (c : Coords) :
    generateFallbackRoute sinpi c c = List.replicate 21 c := by
  rw [List.eq_replicate_iff]
  refine ⟨by simp [generateFallbackRoute], ?_⟩
  intro x hx
  simp only [generateFallbackRoute, List.mem_map] at hx
  obtain ⟨i, _, rfl⟩ := hx
  exact fallbackPoint_self sinpi c i

/-- C9: when origin and destination coincide, the fallback generator
still returns a non-empty sequence of 21 points, each equal to the
coincident coordinate (every interpolation and offset term vanishes). -/
theorem generateFallbackRoute_degenerate (sinpi : ℚ → ℚ) (c : Coords) :
    (generateFallbackRoute sinpi c c).length = 21 ∧
    generateFallbackRoute sinpi c c = List.replicate 21 c :=
  ⟨generateFallbackRoute_length sinpi c c, generateFallbackRoute_self sinpi c⟩

/-! ### Route resolution: failure paths -/

/-- Every outcome satisfying `routeFailure` sends `fetchRoadRoute` into
its `catch` block, i.e. into `applyFallback`; in particular no exception
escapes the resolver on such outcomes. -/
lemma fetchRoadRoute_failure (sinpi : ℚ → ℚ) (res : FetchResult) (a b : Coords)
    (current : Option Coords) (st : MapState) (h : routeFailure res = true) :
    fetchRoadRoute sinpi res a b current st = applyFallback sinpi a b current st := by
  cases res with
  | fetchError => rfl
  | payload code routes =>
    simp only [routeFailure, Bool.or_eq_true, bne_iff_ne, List.isEmpty_iff] at h
    simp only [fetchRoadRoute]
    rw [if_pos h]

/-- C3: on every routing failure (network error, non-OK response,
provider code other than "Ok", or missing/empty route list) the resolver,
modelled as a total function, yields the synthesized fallback route,
which has 21 points and is never empty. -/
theorem resolver_failure_nonempty (sinpi : ℚ → ℚ) (res : FetchResult) (a b : Coords)
    (current : Option Coords) (st : MapState)
    (hfail : routeFailure res = true) (_hab : a ≠ b) :
    (fetchRoadRoute sinpi res a b current st).routeData = generateFallbackRoute sinpi a b ∧
    (fetchRoadRoute sinpi res a b current st).routeData.length = 21 ∧
    (fetchRoadRoute sinpi res a b current st).routeData ≠ [] := by
  rw [fetchRoadRoute_failure sinpi res a b current st hfail]
  have hroute : (applyFallback sinpi a b current st).routeData =
      generateFallbackRoute sinpi a b := by
    cases current <;> rfl
  refine ⟨hroute, ?_, ?_⟩
  · rw [hroute]; exact generateFallbackRoute_length sinpi a b
  · rw [hroute]
    intro hempty
    have hlen := generateFallbackRoute_length sinpi a b
    rw [hempty] at hlen
    simp at hlen

/-- C3 witness: a network error with distinct origin and destination
yields a non-empty route. -/
theorem resolver_failure_nonempty_check :
    routeFailure .fetchError = true ∧ (⟨0,0⟩ : Coords) ≠ ⟨1,1⟩ ∧
    (fetchRoadRoute sinZero .fetchError ⟨0,0⟩ ⟨1,1⟩ none initialState).routeData ≠ [] :=
  ⟨rfl, by decide,
    (resolver_failure_nonempty sinZero .fetchError ⟨0,0⟩ ⟨1,1⟩ none initialState rfl
      (by decide)).2.2⟩

/-- C1 counterexample: take a routing failure with origin `(0,0)`,
destination `(0,10)` and current location `(0,0)`.  The nearest
synthesized point to the current location is the first one, so the rule
used for fetched routes (`calculateCompletedRoute`) truncates after 1
point, but the fallback path of the source instead stores the first
`floor(21 * 0.6) = 12` points: the two rules disagree. -/
theorem fallback_prefix_rule_counterexample :
    (fetchRoadRoute sinZero .fetchError ⟨0,0⟩ ⟨0,10⟩ (some ⟨0,0⟩) initialState).completedRoute ≠
      calculateCompletedRoute ⟨0,0⟩
        (fetchRoadRoute sinZero .fetchError ⟨0,0⟩ ⟨0,10⟩ (some ⟨0,0⟩) initialState).routeData
        initialState.completedRoute := by
  have hroute : (fetchRoadRoute sinZero .fetchError ⟨0,0⟩ ⟨0,10⟩ (some ⟨0,0⟩)
      initialState).routeData = generateFallbackRoute sinZero ⟨0,0⟩ ⟨0,10⟩ := rfl
  have hcode : (fetchRoadRoute sinZero .fetchError ⟨0,0⟩ ⟨0,10⟩ (some ⟨0,0⟩)
      initialState).completedRoute =
      (generateFallbackRoute sinZero ⟨0,0⟩ ⟨0,10⟩).take 12 := rfl
  have hhead : (generateFallbackRoute sinZero ⟨0,0⟩ ⟨0,10⟩)[0]? = some ⟨0,0⟩ := by
    rw [← List.head?_eq_getElem?, generateFallbackRoute_head,
      fallbackPoint_zero sinZero ⟨0,0⟩ ⟨0,10⟩ rfl]
  have hnear : calculateCompletedRoute ⟨0,0⟩ (generateFallbackRoute sinZero ⟨0,0⟩ ⟨0,10⟩)
      initialState.completedRoute =
      (generateFallbackRoute sinZero ⟨0,0⟩ ⟨0,10⟩).take 1 :=
    calculateCompletedRoute_first_occurrence ⟨0,0⟩ _ _ 0 hhead (by omega)
  rw [hroute, hcode, hnear]
  intro heq
  have hlen := congrArg List.length heq
  simp only [List.length_take, generateFallbackRoute_length] at hlen
  omega

/-- C1 (amended): in the fallback path, if a current coordinate is
supplied the completed prefix is the first `floor(length * 0.6)`
synthesized points (the no-current rule of the fetched path); if no
current coordinate is supplied, the completed route is left unchanged. -/
theorem fallback_completed_rule (sinpi : ℚ → ℚ) (res : FetchResult) (a b : Coords)
    (st : MapState) (c : Coords) (hfail : routeFailure res = true) :
    (fetchRoadRoute sinpi res a b (some c) st).completedRoute =
      (generateFallbackRoute sinpi a b).take
        (3 * (generateFallbackRoute sinpi a b).length / 5) ∧
    (fetchRoadRoute sinpi res a b none st).completedRoute = st.completedRoute := by
  rw [fetchRoadRoute_failure sinpi res a b (some c) st hfail,
    fetchRoadRoute_failure sinpi res a b none st hfail]
  exact ⟨rfl, rfl⟩

/-- C1 (amended) witness: a concrete routing failure, with and without a
current coordinate. -/
theorem fallback_completed_rule_check :
    routeFailure .fetchError = true ∧
    (fetchRoadRoute sinZero .fetchError ⟨0,0⟩ ⟨0,10⟩ (some ⟨0,0⟩)
        initialState).completedRoute =
      (generateFallbackRoute sinZero ⟨0,0⟩ ⟨0,10⟩).take
        (3 * (generateFallbackRoute sinZero ⟨0,0⟩ ⟨0,10⟩).length / 5) ∧
    (fetchRoadRoute sinZero .fetchError ⟨0,0⟩ ⟨0,10⟩ none initialState).completedRoute =
      initialState.completedRoute :=
  ⟨rfl,
    (fallback_completed_rule sinZero .fetchError ⟨0,0⟩ ⟨0,10⟩ initialState ⟨0,0⟩ rfl).1,
    (fallback_completed_rule sinZero .fetchError ⟨0,0⟩ ⟨0,10⟩ initialState ⟨0,0⟩ rfl).2⟩

/-- C2 counterexample: on a routing failure with no current coordinate
the resolver leaves the completed route at its initial empty value, whose
length 0 differs from `floor(21 * 0.6) = 12`. -/
theorem completed_length_counterexample :
    (fetchRoadRoute sinZero .fetchError ⟨0,0⟩ ⟨0,10⟩ none initialState).completedRoute.length ≠
      3 * (fetchRoadRoute sinZero .fetchError ⟨0,0⟩ ⟨0,10⟩ none
        initialState).routeData.length / 5 := by
  have h1 : (fetchRoadRoute sinZero .fetchError ⟨0,0⟩ ⟨0,10⟩ none
      initialState).completedRoute = [] := rfl
  have h2 : (fetchRoadRoute sinZero .fetchError ⟨0,0⟩ ⟨0,10⟩ none
      initialState).routeData = generateFallbackRoute sinZero ⟨0,0⟩ ⟨0,10⟩ := rfl
  rw [h1, h2, generateFallbackRoute_length]
  simp only [List.length_nil]
  omega

/-- C2 (amended): for a successfully fetched route with no current
coordinate the completed prefix has length exactly
`floor(N * 0.6)`; for the fallback with no current coordinate the
completed route is left unchanged (empty when resolution starts from the
initial state). -/
theorem completed_length_no_current (sinpi : ℚ → ℚ) (a b : Coords) (st : MapState)
    (g : List (ℚ × ℚ)) (rs : List (List (ℚ × ℚ))) :
    (fetchRoadRoute sinpi (.payload "Ok" (some (g :: rs))) a b none
        st).completedRoute.length = 3 * (convertCoordinates g).length / 5 ∧
    (fetchRoadRoute sinpi .fetchError a b none st).completedRoute = st.completedRoute := by
  constructor
  · simp only [fetchRoadRoute]
    rw [if_neg (by simp)]
    simp only [Option.getD_some, List.headD_cons, List.length_take]
    omega
  · rfl

/-! ### Coordinate conversion, geocoding, and page-level behaviour -/

/-- C6: the provider-to-consumer coordinate-order conversion is a pure
element-wise swap: the output has the same length as the input, and the
point at every position is the input pair at the same position with its
components exchanged (input `(lon, lat)`, output `(lat, lon)`). -/
theorem convertCoordinates_swap (geometry : List (ℚ × ℚ)) :
    (convertCoordinates geometry).length = geometry.length ∧
    ∀ i : ℕ, (convertCoordinates geometry)[i]? =
      (geometry[i]?).map (fun coord => (⟨coord.2, coord.1⟩ : Coords)) := by
  refine ⟨by simp [convertCoordinates], ?_⟩
  intro i
  simp [convertCoordinates]

/-- C7: a geocoding search with zero results yields a reported failure —
`getCoords` returns `null` (it also returns `null` when the request
itself throws, since it catches every error), and
`getCoordinatesFromAddress` signals the dedicated "Address not found"
error; when results exist, both return the first result's parsed
latitude/longitude. -/
theorem geocode_empty_reported :
    (∀ e : Unit, getCoords (.error e) = none) ∧
    getCoords (.ok []) = none ∧
    (∀ (r : GeoResult) (rest : List GeoResult),
      getCoords (.ok (r :: rest)) = some ⟨r.lat, r.lon⟩) ∧
    getCoordinatesFromAddress [] = .error "Address not found" ∧
    (∀ (r : GeoResult) (rest : List GeoResult),
      getCoordinatesFromAddress (r :: rest) = .ok ⟨r.lat, r.lon⟩) :=
  ⟨fun _ => rfl, rfl, fun _ _ => rfl, rfl, fun _ _ => rfl⟩

/-- Any `take` of a list is a `take` of at most its length. -/
lemma exists_take_eq (l : List Coords) (n : ℕ) :
    ∃ k, k ≤ l.length ∧ l.take n = l.take k := by
  refine ⟨min n l.length, min_le_right _ _, ?_⟩
  rcases le_total n l.length with h | h
  · rw [min_eq_left h]
  · rw [min_eq_right h, List.take_of_length_le h, List.take_length]

/-- C8: after a route resolution from the component's initial state, in
every outcome (fetched or fallback, with or without a current
coordinate), the completed route is a prefix of the full route: it equals
the first `k` points of `routeData` for some `k ≤ length`. -/
theorem completedRoute_prefix_of_routeData (sinpi : ℚ → ℚ) (res : FetchResult)
    (a b : Coords) (current : Option Coords) :
    ∃ k, k ≤ (fetchRoadRoute sinpi res a b current initialState).routeData.length ∧
      (fetchRoadRoute sinpi res a b current initialState).completedRoute =
        (fetchRoadRoute sinpi res a b current initialState).routeData.take k := by
  by_cases hfail : routeFailure res = true
  · rw [fetchRoadRoute_failure sinpi res a b current initialState hfail]
    cases current with
    | none => exact ⟨0, Nat.zero_le _, rfl⟩
    | some c =>
      obtain ⟨k, hk, he⟩ := exists_take_eq (generateFallbackRoute sinpi a b)
        (3 * (generateFallbackRoute sinpi a b).length / 5)
      exact ⟨k, hk, he⟩
  · cases res with
    | fetchError => simp [routeFailure] at hfail
    | payload code routes =>
      simp only [routeFailure, Bool.or_eq_true, bne_iff_ne, List.isEmpty_iff,
        not_or, Bool.not_eq_true] at hfail
      have hcond : ¬ (code ≠ "Ok" ∨ routes.getD [] = []) := not_or.mpr hfail
      simp only [fetchRoadRoute]
      rw [if_neg hcond]
      cases current with
      | none =>
        obtain ⟨k, hk, he⟩ := exists_take_eq
          (convertCoordinates ((routes.getD []).headD []))
          (3 * (convertCoordinates ((routes.getD []).headD [])).length / 5)
        exact ⟨k, hk, he⟩
      | some c =>
        by_cases hlen : (convertCoordinates ((routes.getD []).headD [])).length = 0
        · refine ⟨0, Nat.zero_le _, ?_⟩
          simp only [calculateCompletedRoute, if_pos hlen]
          rfl
        · obtain ⟨k, hk, he⟩ := exists_take_eq
            (convertCoordinates ((routes.getD []).headD []))
            (closestPointIndex c (convertCoordinates ((routes.getD []).headD [])) + 1)
          refine ⟨k, hk, ?_⟩
          simp only [calculateCompletedRoute, if_neg hlen]
          exact he

/-- C10: in the tracking page, `getCoords` is total (every error is
caught internally and becomes `null`), so the `try` block of
`fetchCoordinates` always completes normally: the catch branch that
would set the "Could not load map coordinates" error is unreachable, the
error message is left unchanged, a failed geocoding leaves the
corresponding coordinate `null`, and the map card is rendered exactly
when both origin and destination coordinates are non-null. -/
theorem fetchCoordinates_no_error (st : PageState)
    (o d c : Except Unit (List GeoResult)) :
    fetchCoordinatesTryBlock o d c = .ok (getCoords o, getCoords d, getCoords c) ∧
    fetchCoordinates st o d c =
      { st with fromCoords := getCoords o, toCoords := getCoords d,
                currentCoords := getCoords c } ∧
    (fetchCoordinates st o d c).errorMsg = st.errorMsg ∧
    getCoords (.error ()) = none ∧
    (∀ st2 : PageState, showMapCard st2 = (st2.fromCoords.isSome && st2.toCoords.isSome)) :=
  ⟨rfl, rfl, rfl, rfl, fun _ => rfl⟩

end Tracking
